import Mathlib

/-!
# Verification of tvnsrtools (client `tvnsManagerInterface.py` + mock server `tvnsMockServer.py`)

Shallow embedding of the tVNS-R HTTP command client and its companion mock
server.  Network I/O is modelled by passing the `HttpResponse` the server
would return explicitly to each client operation; `random.random()` draws,
timestamps and the Python float renderings are likewise explicit parameters.
`time.sleep` has no observable effect in the model and is dropped.
-/

/-! ## Generic string machinery

The Python `needle in hay` substring test, modelled on `List Char`. -/

/-- Whether the list `n` is a prefix of the list `h`. -/
def isPrefixL : List Char → List Char → Bool
  | [], _ => true
  | _ :: _, [] => false
  | a :: as, b :: bs => a = b && isPrefixL as bs

/-- Whether the list `n` occurs as a contiguous sublist of `h`
(the Python substring test on strings). -/
def containsSub (needle : List Char) : List Char → Bool
  | [] => needle.isEmpty
  | c :: t => isPrefixL needle (c :: t) || containsSub needle t

/-- The Python substring test `needle in hay` for strings. -/
def strContains (needle hay : String) : Bool :=
  containsSub needle.toList hay.toList

/-! Occurrence of two adjacent `'c'` characters.  The literal `"success"`
contains `"cc"`, while the fixed texts and number renderings appearing in
the synthesized client messages never do; this is how we prove that those
messages can never pass the substring check for `success`. -/

/-- Whether some two adjacent characters of `l` are both `'c'`. -/
def hasCC : List Char → Bool
  | a :: b :: t => (a = 'c' && b = 'c') || hasCC (b :: t)
  | _ => false

/-- First character is `'c'`. -/
def headIsC : List Char → Bool
  | [] => false
  | a :: _ => a = 'c'

/-- Last character is `'c'`. -/
def lastIsC : List Char → Bool
  | [] => false
  | [a] => a = 'c'
  | _ :: b :: t => lastIsC (b :: t)

/-! ## Decimal rendering of natural numbers

Models the Python string interpolation of the status code for a
(non-negative) integer status code. -/

/-- The ten decimal digit characters. -/
def digitChars : List Char :=
  ['0', '1', '2', '3', '4', '5', '6', '7', '8', '9']

/-- The decimal digit character for `n < 10` (callers only use `n % 10`). -/
def digitChar : Nat → Char
  | 0 => '0'
  | 1 => '1'
  | 2 => '2'
  | 3 => '3'
  | 4 => '4'
  | 5 => '5'
  | 6 => '6'
  | 7 => '7'
  | 8 => '8'
  | _ => '9'

/-- Decimal rendering of a natural number, most significant digit first. -/
def natReprL (n : Nat) : List Char :=
  if h : n < 10 then [digitChar n]
  else natReprL (n / 10) ++ [digitChar (n % 10)]
  decreasing_by
    exact Nat.div_lt_self (Nat.lt_of_lt_of_le (by decide) (Nat.le_of_not_lt h)) (by decide)

/-- Decimal rendering of a natural number as a `String`. -/
def natReprS (n : Nat) : String := ⟨natReprL n⟩

/-- Characters that can appear in the Python decimal rendering of a float
(digits, sign, decimal point, exponent marker, `inf`, `nan`). -/
def okFloatChars : List Char :=
  ['0', '1', '2', '3', '4', '5', '6', '7', '8', '9', '.', '+', '-', 'e', 'i', 'n', 'f', 'a']

/-- Boolean test that a character is a possible float-rendering character. -/
def fltChar (c : Char) : Bool := decide (c ∈ okFloatChars)

/-! ## Data model

`HttpResponse` stands for the `requests.Response` the client sees;
`ClientState` is the mutable state of a `TVNSManager` instance (the
`stimactive` flag, whether a `Logger` was configured, and the log lines
written so far); `CmdOutcome` bundles the `(success, text)` pair returned
to the caller with the updated state and the trace of command bodies sent
over the network during the call. -/

structure HttpResponse where
  statusCode : Nat
  text : String
  deriving DecidableEq

structure ClientState where
  stimactive : Bool
  loggerEnabled : Bool
  log : List String
  deriving DecidableEq

structure CmdOutcome where
  success : Bool
  text : String
  state : ClientState
  sent : List String
  deriving DecidableEq

/-- The state of a freshly constructed `TVNSManager` (`self.stimactive = False`). -/
def initialState (loggerEnabled : Bool) : ClientState :=
  { stimactive := false, loggerEnabled := loggerEnabled, log := [] }

/-- Model of `Logger.log` when a logger is configured, identity otherwise
(`if self.logger: self.logger.log(msg)`). -/
def logIf (st : ClientState) (msg : String) : ClientState :=
  if st.loggerEnabled then { st with log := st.log ++ [msg] } else st

/-- Model of `TVNSManager._send_request`: a 200 response yields its body text; any
other status code is converted to the fixed failure text (no exception). -/
def sendRequest (r : HttpResponse) : String :=
  if r.statusCode = 200 then r.text
  else "HTTP request failed with status code: " ++ natReprS r.statusCode

/-- Model of `TVNSManager._validate_response`: success is the substring test
for `success` in the response; on failure with a logger configured, a
`Command failed:` line is appended. Returns `(validation, response)` plus
the updated state. -/
def validateResponse (st : ClientState) (response : String) :
    Bool × String × ClientState :=
  let validation := strContains "success" response
  let st2 := if !validation then logIf st ("Command failed: " ++ response) else st
  (validation, response, st2)

/-- Whether a given raw HTTP response validates as successful. -/
def respSuccess (r : HttpResponse) : Bool :=
  strContains "success" (sendRequest r)

/-! ## Client operations (`TVNSManager`)

Each decorated method computes its raw result, does its own logging and
flag update, and is then wrapped by `_validate_response`.  The
`HttpResponse` parameter is the response the server returns to the one
POST the method makes. -/

/-- Model of `TVNSManager.initialise_connection` (decorated with `_validate_response`). -/
def initialise_connection (st : ClientState) (r : HttpResponse) : CmdOutcome :=
  let result := sendRequest r
  let st1 := logIf st "Initialized connection"
  let v := validateResponse st1 result
  { success := v.1, text := v.2.1, state := v.2.2, sent := ["initialise"] }

/-- Model of `TVNSManager.start_treatment`: sends `startTreatment`, logs, sets
`stimactive := true` unconditionally. -/
def start_treatment (st : ClientState) (r : HttpResponse) : CmdOutcome :=
  let result := sendRequest r
  let st1 := logIf st "Started treatment"
  let st2 := { st1 with stimactive := true }
  let v := validateResponse st2 result
  { success := v.1, text := v.2.1, state := v.2.2, sent := ["startTreatment"] }

/-- Model of `TVNSManager.stop_treatment`: sends `stopTreatment`, logs, clears
`stimactive` unconditionally. -/
def stop_treatment (st : ClientState) (r : HttpResponse) : CmdOutcome :=
  let result := sendRequest r
  let st1 := logIf st "Stopped treatment"
  let st2 := { st1 with stimactive := false }
  let v := validateResponse st2 result
  { success := v.1, text := v.2.1, state := v.2.2, sent := ["stopTreatment"] }

/-- Model of `TVNSManager.start_stimulation`: sends `startStimulation`, logs, sets
`stimactive := true` unconditionally. -/
def start_stimulation (st : ClientState) (r : HttpResponse) : CmdOutcome :=
  let result := sendRequest r
  let st1 := logIf st "Started stimulation"
  let st2 := { st1 with stimactive := true }
  let v := validateResponse st2 result
  { success := v.1, text := v.2.1, state := v.2.2, sent := ["startStimulation"] }

/-- Model of `TVNSManager.stop_stimulation`: sends `stopStimulation`, logs, clears
`stimactive` unconditionally. -/
def stop_stimulation (st : ClientState) (r : HttpResponse) : CmdOutcome :=
  let result := sendRequest r
  let st1 := logIf st "Stopped stimulation"
  let st2 := { st1 with stimactive := false }
  let v := validateResponse st2 result
  { success := v.1, text := v.2.1, state := v.2.2, sent := ["stopStimulation"] }

/-- Model of `TVNSManager.pause_stimulation`: no network traffic; synthesizes the
message, logs it, sleeps, and is still wrapped by `_validate_response`.
`dStr` and `mStr` stand for the Python renderings of `pause_duration` and
`pause_duration * 1000` inside the f-string. -/
def pause_stimulation (st : ClientState) (dStr mStr : String) : CmdOutcome :=
  let result :=
    "Paused stimulation for " ++ dStr ++ " seconds / " ++ mStr ++ " milliseconds."
  let st1 := logIf st result
  let v := validateResponse st1 result
  { success := v.1, text := v.2.1, state := v.2.2, sent := [] }

/-- The message synthesized by `pause_stimulation`. -/
def pauseMessage (dStr mStr : String) : String :=
  "Paused stimulation for " ++ dStr ++ " seconds / " ++ mStr ++ " milliseconds."

/-- Model of `TVNSManager.pulse`: undecorated.  `d` is the requested duration,
`dStr` its rendering in the result message, `ts` the timestamp appearing
in the result message; `r1 r2 r3` are the responses to the successive
network commands the call makes (`r3` is unused when only two commands
are sent). -/
def pulse (st : ClientState) (d : Rat) (dStr ts : String)
    (r1 r2 r3 : HttpResponse) : CmdOutcome :=
  if d < 0 then
    { success := false, text := "Requested Pulse too short. Min duration 0s",
      state := st, sent := [] }
  else if st.stimactive = false then
    let o1 := start_stimulation st r1
    let o2 := stop_stimulation o1.state r2
    let succ := o1.success && o2.success
    let st3 := logIf o2.state "Started stimulation (pulsed)"
    { success := succ,
      text := (if succ then "success" else "failed") ++ " pulsedStimulation ("
        ++ dStr ++ "s)::" ++ ts ++ " (custom return)",
      state := st3, sent := o1.sent ++ o2.sent }
  else
    let o1 := stop_stimulation st r1
    let o2 := start_stimulation o1.state r2
    let o3 := stop_stimulation o2.state r3
    let succ := o1.success && (o2.success && o3.success)
    let st4 := logIf o3.state "Started stimulation (pulsed)"
    { success := succ,
      text := (if succ then "success" else "failed") ++ " pulsedStimulation ("
        ++ dStr ++ "s)::" ++ ts ++ " (custom return)",
      state := st4, sent := o1.sent ++ (o2.sent ++ o3.sent) }

/-! ## Mock server (`TVNSRequestHandler.do_POST`)

`failProb` is the configured failure probability, `draw` the value of
`random.random()` for this request (in `[0, 1)`), `ts` the formatted
timestamp, `body` the decoded POST body. -/

/-- One formatted 200 response of the mock server
(`send_formatted_response`). -/
def mockFormatted (msg : String) (succ : Bool) (ts : String) : HttpResponse :=
  { statusCode := 200,
    text := (if succ then "success" else "failed") ++ ": " ++ msg ++ "::"
      ++ ts ++ " (mocked output) \n" }

/-- The response of the mock server to one POST request. -/
def mockResponse (failProb draw : Rat) (ts : String) (body : String) :
    HttpResponse :=
  if body = "initialise" then
    mockFormatted "The tVNS-R device has been initialized" true ts
  else if body = "startTreatment" then
    if draw < failProb then mockFormatted "Treatment not started" false ts
    else mockFormatted "Treatment started" true ts
  else if body = "stopTreatment" then
    if draw < failProb then mockFormatted "Treatment not stopped" false ts
    else mockFormatted "Treatment stopped" true ts
  else if body = "startStimulation" then
    if draw < failProb then mockFormatted "Stimulation not started" false ts
    else mockFormatted "Stimulation started" true ts
  else if body = "stopStimulation" then
    if draw < failProb then mockFormatted "Stimulation not stopped" false ts
    else mockFormatted "Stimulation stopped" true ts
  else
    { statusCode := 400,
      text := "illegal command: The command was not recognized::" ++ ts ++ "\n" }

/-! ## String lemmas -/

theorem isPrefixL_iff (n h : List Char) :
    isPrefixL n h = true ↔ ∃ t, h = n ++ t := by
  induction n generalizing h with
  | nil => simp [isPrefixL]
  | cons a as ih =>
    cases h with
    | nil => simp [isPrefixL]
    | cons b bs =>
      simp only [isPrefixL, Bool.and_eq_true, decide_eq_true_eq, ih]
      constructor
      · rintro ⟨rfl, t, rfl⟩; exact ⟨t, rfl⟩
      · rintro ⟨t, het⟩
        cases het
        exact ⟨rfl, t, rfl⟩

theorem containsSub_iff (n h : List Char) :
    containsSub n h = true ↔ ∃ s t, h = s ++ (n ++ t) := by
  induction h with
  | nil =>
    simp only [containsSub, List.isEmpty_iff]
    constructor
    · rintro rfl; exact ⟨[], [], rfl⟩
    · rintro ⟨s, t, het⟩
      rcases List.append_eq_nil.mp het.symm with ⟨rfl, h2⟩
      exact (List.append_eq_nil.mp h2).1
  | cons c t ih =>
    simp only [containsSub, Bool.or_eq_true, ih, isPrefixL_iff]
    constructor
    · rintro (⟨r, hr⟩ | ⟨s, r, hr⟩)
      · exact ⟨[], r, hr⟩
      · exact ⟨c :: s, r, by simp [hr]⟩
    · rintro ⟨s, r, hr⟩
      cases s with
      | nil => exact Or.inl ⟨r, by simpa using hr⟩
      | cons x xs =>
        simp only [List.cons_append, List.cons.injEq] at hr
        exact Or.inr ⟨xs, r, hr.2⟩

theorem containsSub_append_right (n h r : List Char)
    (hh : containsSub n h = true) : containsSub n (h ++ r) = true := by
  rcases (containsSub_iff n h).mp hh with ⟨s, t, rfl⟩
  exact (containsSub_iff n _).mpr ⟨s, t ++ r, by simp⟩

theorem containsSub_head (n t : List Char) : containsSub n (n ++ t) = true :=
  (containsSub_iff n _).mpr ⟨[], t, rfl⟩

theorem hasCC_append (x y : List Char) :
    hasCC (x ++ y) = (hasCC x || hasCC y || (lastIsC x && headIsC y)) := by
  induction x with
  | nil => simp [hasCC, lastIsC]
  | cons a t ih =>
    cases t with
    | nil =>
      cases y with
      | nil => simp [hasCC, lastIsC, headIsC]
      | cons b bs =>
        simp only [List.singleton_append, hasCC, lastIsC, headIsC]
        cases hab : (decide (a = 'c') && decide (b = 'c')) <;>
          simp_all [Bool.or_comm, Bool.or_assoc, Bool.or_left_comm]
    | cons b bs =>
      have hx : (a :: b :: bs) ++ y = a :: ((b :: bs) ++ y) := rfl
      rw [hx]
      show ((a = 'c' && b = 'c') || hasCC ((b :: bs) ++ y)) = _
      rw [ih]
      show _ = ((a = 'c' && b = 'c') || hasCC (b :: bs) || hasCC y
        || (lastIsC (b :: bs) && headIsC y))
      cases hab : (decide (a = 'c') && decide (b = 'c')) <;>
        simp [Bool.or_comm, Bool.or_assoc, Bool.or_left_comm]

theorem hasCC_of_containsSub (n h : List Char)
    (hsub : containsSub n h = true) (hn : hasCC n = true) :
    hasCC h = true := by
  rcases (containsSub_iff n h).mp hsub with ⟨s, t, rfl⟩
  rw [hasCC_append, hasCC_append, hn]
  simp

/-- Lists none of whose characters are `'c'` have no `cc`, and start and end
with something other than `'c'`. -/
theorem noC_props (l : List Char) (hl : ∀ c ∈ l, c ≠ 'c') :
    hasCC l = false ∧ headIsC l = false ∧ lastIsC l = false := by
  induction l with
  | nil => simp [hasCC, headIsC, lastIsC]
  | cons a t ih =>
    have ha : a ≠ 'c' := hl a (List.mem_cons_self a t)
    have ht : ∀ c ∈ t, c ≠ 'c' := fun c hc => hl c (List.mem_cons_of_mem a hc)
    have iht := ih ht
    cases t with
    | nil => simp [hasCC, headIsC, lastIsC, ha]
    | cons b bs =>
      refine ⟨?_, ?_, ?_⟩
      · show ((a = 'c' && b = 'c') || hasCC (b :: bs)) = false
        simp [ha, iht.1]
      · simp [headIsC, ha]
      · show lastIsC (b :: bs) = false
        exact iht.2.2

theorem digitChar_mem (n : Nat) : digitChar n ∈ digitChars := by
  unfold digitChar
  split <;> decide

theorem natReprL_digits (n : Nat) : ∀ c ∈ natReprL n, c ∈ digitChars := by
  induction n using Nat.strong_induction_on with
  | _ n ih =>
    intro c hc
    rw [natReprL] at hc
    split at hc
    · rcases List.mem_singleton.mp hc with rfl
      exact digitChar_mem n
    · rename_i hn
      rcases List.mem_append.mp hc with h1 | h2
      · exact ih (n / 10) (Nat.div_lt_self (by omega) (by omega)) c h1
      · rcases List.mem_singleton.mp h2 with rfl
        exact digitChar_mem (n % 10)

theorem digit_ne_c {c : Char} (hc : c ∈ digitChars) : c ≠ 'c' := by
  rintro rfl
  revert hc
  decide

/-! ## Helper lemmas -/

theorem logIf_stimactive (st : ClientState) (m : String) :
    (logIf st m).stimactive = st.stimactive := by
  unfold logIf
  split <;> rfl

theorem logIf_loggerEnabled (st : ClientState) (m : String) :
    (logIf st m).loggerEnabled = st.loggerEnabled := by
  unfold logIf
  split <;> rfl

theorem validateResponse_state_stimactive (st : ClientState) (res : String) :
    (validateResponse st res).2.2.stimactive = st.stimactive := by
  show (if (!strContains "success" res) = true
      then logIf st ("Command failed: " ++ res) else st).stimactive = st.stimactive
  split <;> simp [logIf_stimactive]

theorem start_stimulation_stimactive (st : ClientState) (r : HttpResponse) :
    (start_stimulation st r).state.stimactive = true := by
  unfold start_stimulation
  simp [validateResponse_state_stimactive, logIf_stimactive]

theorem stop_stimulation_stimactive (st : ClientState) (r : HttpResponse) :
    (stop_stimulation st r).state.stimactive = false := by
  unfold stop_stimulation
  simp [validateResponse_state_stimactive, logIf_stimactive]

theorem stop_stimulation_success (st : ClientState) (r : HttpResponse) :
    (stop_stimulation st r).success = respSuccess r := rfl

theorem start_stimulation_success (st : ClientState) (r : HttpResponse) :
    (start_stimulation st r).success = respSuccess r := rfl

theorem start_stimulation_sent (st : ClientState) (r : HttpResponse) :
    (start_stimulation st r).sent = ["startStimulation"] := rfl

theorem stop_stimulation_sent (st : ClientState) (r : HttpResponse) :
    (stop_stimulation st r).sent = ["stopStimulation"] := rfl

/-- If a character list has no adjacent pair of `'c'`s, then the literal
`"success"` does not occur in it (because `"success"` contains `"cc"`). -/
theorem containsSub_success_eq_false (h : List Char) (hcc : hasCC h = false) :
    containsSub ("success".toList) h = false := by
  cases hs : containsSub ("success".toList) h
  · rfl
  · have := hasCC_of_containsSub _ _ hs (by decide)
    rw [hcc] at this
    exact absurd this (by simp)

theorem hasCC_append_false (x y : List Char) (hx : hasCC x = false)
    (hy : hasCC y = false) (hb : headIsC y = false) : hasCC (x ++ y) = false := by
  rw [hasCC_append, hx, hy, hb]
  simp

/-- Projection to character lists distributes over string append. -/
theorem strToList_append (a b : String) : (a ++ b).toList = a.toList ++ b.toList :=
  rfl

theorem strContains_append_left (n a b : String)
    (h : strContains n a = true) : strContains n (a ++ b) = true := by
  unfold strContains at *
  rw [strToList_append]
  exact containsSub_append_right _ _ _ h

/-- The transport-failure text produced by `_send_request` for status code
`n` never contains `"success"`. -/
theorem noSuccess_httpFail (n : Nat) :
    strContains "success"
      ("HTTP request failed with status code: " ++ natReprS n) = false := by
  have hD : ∀ c ∈ natReprL n, c ≠ 'c' := fun c hc => digit_ne_c (natReprL_digits n c hc)
  have pd := noC_props (natReprL n) hD
  have hlist : ("HTTP request failed with status code: " ++ natReprS n).toList
      = "HTTP request failed with status code: ".toList ++ natReprL n := rfl
  unfold strContains
  rw [hlist]
  refine containsSub_success_eq_false _ ?_
  rw [hasCC_append]
  rw [pd.1, pd.2.1]
  simp
  decide

theorem fltChar_ne_c {c : Char} (hc : fltChar c = true) : c ≠ 'c' := by
  rintro rfl
  revert hc
  decide

/-- The message synthesized by `pause_stimulation` never contains
`"success"`, as long as the two number renderings spliced into it use only
float-rendering characters. -/
theorem noSuccess_pauseMessage (dStr mStr : String)
    (hd : dStr.toList.all fltChar = true) (hm : mStr.toList.all fltChar = true) :
    strContains "success" (pauseMessage dStr mStr) = false := by
  have hdC : ∀ c ∈ dStr.toList, c ≠ 'c' := by
    intro c hc
    exact fltChar_ne_c (by simpa using (List.all_eq_true.mp hd) c hc)
  have hmC : ∀ c ∈ mStr.toList, c ≠ 'c' := by
    intro c hc
    exact fltChar_ne_c (by simpa using (List.all_eq_true.mp hm) c hc)
  have pd := noC_props dStr.toList hdC
  have pm := noC_props mStr.toList hmC
  have hlist : (pauseMessage dStr mStr).toList
      = ((("Paused stimulation for ".toList ++ dStr.toList)
          ++ " seconds / ".toList) ++ mStr.toList) ++ " milliseconds.".toList := rfl
  unfold strContains
  rw [hlist]
  refine containsSub_success_eq_false _ ?_
  refine hasCC_append_false _ _ ?_ (by decide) (by decide)
  refine hasCC_append_false _ _ ?_ pm.1 pm.2.1
  refine hasCC_append_false _ _ ?_ (by decide) (by decide)
  exact hasCC_append_false _ _ (by decide) pd.1 pd.2.1

/-! ## Claims -/

/-- C1: every decorated client command returns a pair `(success, raw_text)`
with `success` equal to the substring test for `success` in the raw text; the
HTTP status code never determines success by itself (it only enters through
the text substituted by `_send_request`). -/
theorem client_success_iff_substring :
    ∀ (st : ClientState) (r : HttpResponse) (dStr mStr : String),
      (initialise_connection st r).success
          = strContains "success" ((initialise_connection st r).text)
      ∧ (start_treatment st r).success
          = strContains "success" ((start_treatment st r).text)
      ∧ (stop_treatment st r).success
          = strContains "success" ((stop_treatment st r).text)
      ∧ (start_stimulation st r).success
          = strContains "success" ((start_stimulation st r).text)
      ∧ (stop_stimulation st r).success
          = strContains "success" ((stop_stimulation st r).text)
      ∧ (pause_stimulation st dStr mStr).success
          = strContains "success" ((pause_stimulation st dStr mStr).text) :=
  fun _ _ _ _ => ⟨rfl, rfl, rfl, rfl, rfl, rfl⟩

/-- C3: `start_stimulation` always leaves the stimulation-active flag true
and `stop_stimulation` always leaves it false — for every prior state and
every server response, i.e. also when the command failed (optimistic local
mirror). -/
theorem stimactive_optimistic_mirror :
    ∀ (st : ClientState) (r : HttpResponse),
      (start_stimulation st r).state.stimactive = true
      ∧ (stop_stimulation st r).state.stimactive = false :=
  fun st r => ⟨start_stimulation_stimactive st r, stop_stimulation_stimactive st r⟩

/-- C4 counterexample: a failed `start_stimulation` (server replies 200 with
a `failed:` body, so `success = false`) still sets the stimulation-active
flag to true; hence the flag is not only true between a successful start and
a later stop. -/
theorem stimactive_after_failed_start :
    (start_stimulation (initialState false)
        ⟨200, "failed: Stimulation not started::12:00:00.000 (mocked output) \n"⟩).success
      = false
    ∧ (start_stimulation (initialState false)
        ⟨200, "failed: Stimulation not started::12:00:00.000 (mocked output) \n"⟩).state.stimactive
      = true := by
  constructor
  · decide
  · decide

/-- C4 amended: the stimulation-active flag simply mirrors the last
flag-touching command — true after any start (treatment or stimulation),
false after any stop — regardless of whether that command succeeded. -/
theorem stimactive_follows_last_command :
    ∀ (st : ClientState) (r : HttpResponse),
      (start_treatment st r).state.stimactive = true
      ∧ (stop_treatment st r).state.stimactive = false
      ∧ (start_stimulation st r).state.stimactive = true
      ∧ (stop_stimulation st r).state.stimactive = false := by
  intro st r
  refine ⟨?_, ?_, start_stimulation_stimactive st r, stop_stimulation_stimactive st r⟩
  · unfold start_treatment
    simp [validateResponse_state_stimactive, logIf_stimactive]
  · unfold stop_treatment
    simp [validateResponse_state_stimactive, logIf_stimactive]

/-- C2: for a non-negative duration, `pulse` sends exactly
start–stop when the stimulation-active flag is false and stop–start–stop
when it is true, and succeeds exactly when every sent command succeeded. -/
theorem pulse_command_trace (st : ClientState) (d : Rat) (dStr ts : String)
    (r1 r2 r3 : HttpResponse) (hd : 0 ≤ d) :
    (pulse st d dStr ts r1 r2 r3).sent
      = (if st.stimactive
         then ["stopStimulation", "startStimulation", "stopStimulation"]
         else ["startStimulation", "stopStimulation"])
    ∧ (pulse st d dStr ts r1 r2 r3).success
      = (if st.stimactive
         then respSuccess r1 && (respSuccess r2 && respSuccess r3)
         else respSuccess r1 && respSuccess r2) := by
  unfold pulse
  rw [if_neg (not_lt.mpr hd)]
  cases hst : st.stimactive
  · simp [hst, start_stimulation_success, stop_stimulation_success,
      start_stimulation_sent, stop_stimulation_sent]
  · simp [hst, start_stimulation_success, stop_stimulation_success,
      start_stimulation_sent, stop_stimulation_sent]

theorem pulse_command_trace_witness :
    (0 : Rat) ≤ 1
    ∧ ((pulse (initialState false) 1 "1" "t" ⟨200, "success: a"⟩ ⟨200, "success: b"⟩
          ⟨200, "success: b"⟩).sent
        = (if (initialState false).stimactive
           then ["stopStimulation", "startStimulation", "stopStimulation"]
           else ["startStimulation", "stopStimulation"])
      ∧ (pulse (initialState false) 1 "1" "t" ⟨200, "success: a"⟩ ⟨200, "success: b"⟩
          ⟨200, "success: b"⟩).success
        = (if (initialState false).stimactive
           then respSuccess ⟨200, "success: a"⟩ && (respSuccess ⟨200, "success: b"⟩
             && respSuccess ⟨200, "success: b"⟩)
           else respSuccess ⟨200, "success: a"⟩ && respSuccess ⟨200, "success: b"⟩)) :=
  ⟨by norm_num,
   pulse_command_trace (initialState false) 1 "1" "t" ⟨200, "success: a"⟩
     ⟨200, "success: b"⟩ ⟨200, "success: b"⟩ (by norm_num)⟩

/-- C5: for a non-negative duration, `pulse` always leaves the
stimulation-active flag false (its last downstream command is a stop, which
clears the flag unconditionally), on success and failure paths alike. -/
theorem pulse_leaves_stopped (st : ClientState) (d : Rat) (dStr ts : String)
    (r1 r2 r3 : HttpResponse) (hd : 0 ≤ d) :
    (pulse st d dStr ts r1 r2 r3).state.stimactive = false := by
  unfold pulse
  rw [if_neg (not_lt.mpr hd)]
  cases hst : st.stimactive
  · simp [hst, logIf_stimactive, stop_stimulation_stimactive]
  · simp [hst, logIf_stimactive, stop_stimulation_stimactive]

theorem pulse_leaves_stopped_witness :
    (0 : Rat) ≤ 1
    ∧ (pulse (initialState false) 1 "1" "t" ⟨200, "x"⟩ ⟨200, "y"⟩
        ⟨200, "z"⟩).state.stimactive = false :=
  ⟨by norm_num,
   pulse_leaves_stopped (initialState false) 1 "1" "t" ⟨200, "x"⟩ ⟨200, "y"⟩
     ⟨200, "z"⟩ (by norm_num)⟩

/-- C6: a negative duration makes `pulse` return
`(False, "Requested Pulse too short. Min duration 0s")` immediately: no
command is sent and the client state is untouched. -/
theorem pulse_negative_duration (st : ClientState) (d : Rat) (dStr ts : String)
    (r1 r2 r3 : HttpResponse) (hd : d < 0) :
    (pulse st d dStr ts r1 r2 r3).success = false
    ∧ (pulse st d dStr ts r1 r2 r3).text
      = "Requested Pulse too short. Min duration 0s"
    ∧ (pulse st d dStr ts r1 r2 r3).sent = []
    ∧ (pulse st d dStr ts r1 r2 r3).state = st := by
  unfold pulse
  rw [if_pos hd]
  exact ⟨rfl, rfl, rfl, rfl⟩

theorem pulse_negative_duration_witness :
    (-1 : Rat) < 0
    ∧ ((pulse (initialState false) (-1) "-1" "t" ⟨200, "x"⟩ ⟨200, "y"⟩
          ⟨200, "z"⟩).success = false
      ∧ (pulse (initialState false) (-1) "-1" "t" ⟨200, "x"⟩ ⟨200, "y"⟩
          ⟨200, "z"⟩).text = "Requested Pulse too short. Min duration 0s"
      ∧ (pulse (initialState false) (-1) "-1" "t" ⟨200, "x"⟩ ⟨200, "y"⟩
          ⟨200, "z"⟩).sent = []
      ∧ (pulse (initialState false) (-1) "-1" "t" ⟨200, "x"⟩ ⟨200, "y"⟩
          ⟨200, "z"⟩).state = initialState false) :=
  ⟨by norm_num,
   pulse_negative_duration (initialState false) (-1) "-1" "t" ⟨200, "x"⟩
     ⟨200, "y"⟩ ⟨200, "z"⟩ (by norm_num)⟩

theorem validateResponse_state_of_fail (st : ClientState) (res : String)
    (h : strContains "success" res = false) :
    (validateResponse st res).2.2 = logIf st ("Command failed: " ++ res) := by
  show (if (!strContains "success" res) = true
      then logIf st ("Command failed: " ++ res) else st) = _
  rw [h]
  simp

/-- C7: a non-200 status is never raised: `_send_request` substitutes the
fixed failure text, the `success` substring check on that text is false (its
characters can never spell `"success"`), and every decorated command hands
the caller `(False, that text)`. -/
theorem transport_failure_uniform (st : ClientState) (r : HttpResponse)
    (h : r.statusCode ≠ 200) :
    sendRequest r = "HTTP request failed with status code: " ++ natReprS r.statusCode
    ∧ strContains "success" (sendRequest r) = false
    ∧ (initialise_connection st r).success = false
    ∧ (initialise_connection st r).text = sendRequest r
    ∧ (start_treatment st r).success = false
    ∧ (stop_treatment st r).success = false
    ∧ (start_stimulation st r).success = false
    ∧ (stop_stimulation st r).success = false := by
  have hs : sendRequest r
      = "HTTP request failed with status code: " ++ natReprS r.statusCode := by
    unfold sendRequest
    rw [if_neg h]
  have hn : strContains "success" (sendRequest r) = false := by
    rw [hs]
    exact noSuccess_httpFail r.statusCode
  exact ⟨hs, hn, hn, rfl, hn, hn, hn, hn⟩

theorem transport_failure_uniform_witness :
    sendRequest ⟨404, "x"⟩ = "HTTP request failed with status code: " ++ natReprS 404
    ∧ strContains "success" (sendRequest ⟨404, "x"⟩) = false
    ∧ (initialise_connection (initialState false) ⟨404, "x"⟩).success = false
    ∧ (initialise_connection (initialState false) ⟨404, "x"⟩).text = sendRequest ⟨404, "x"⟩
    ∧ (start_treatment (initialState false) ⟨404, "x"⟩).success = false
    ∧ (stop_treatment (initialState false) ⟨404, "x"⟩).success = false
    ∧ (start_stimulation (initialState false) ⟨404, "x"⟩).success = false
    ∧ (stop_stimulation (initialState false) ⟨404, "x"⟩).success = false :=
  transport_failure_uniform (initialState false) ⟨404, "x"⟩ (by decide)

theorem strContains_mockFormatted (n msg : String) (succ : Bool) (ts : String)
    (h : strContains n ((if succ then "success" else "failed") ++ ": " ++ msg ++ "::")
      = true) :
    strContains n (mockFormatted msg succ ts).text = true := by
  show strContains n
    (((if succ then "success" else "failed") ++ ": " ++ msg ++ "::")
      ++ ts ++ " (mocked output) \n") = true
  exact strContains_append_left _ _ _ (strContains_append_left _ _ _ h)

/-- C8: the mock server answers `initialise` with a `success:` body whatever
the failure probability, and with failure probability 1 it answers every
other known command with a `failed:` body (`random.random()` always draws
in `[0, 1)`). -/
theorem mock_initialise_and_prob_one (failProb draw : Rat) (ts : String)
    (h0 : 0 ≤ draw) (h1 : draw < 1) :
    strContains "success" (mockResponse failProb draw ts "initialise").text = true
    ∧ strContains "failed" (mockResponse 1 draw ts "startTreatment").text = true
    ∧ strContains "failed" (mockResponse 1 draw ts "stopTreatment").text = true
    ∧ strContains "failed" (mockResponse 1 draw ts "startStimulation").text = true
    ∧ strContains "failed" (mockResponse 1 draw ts "stopStimulation").text = true := by
  have e1 : mockResponse failProb draw ts "initialise"
      = mockFormatted "The tVNS-R device has been initialized" true ts := by
    unfold mockResponse
    rw [if_pos rfl]
  have e2 : mockResponse 1 draw ts "startTreatment"
      = mockFormatted "Treatment not started" false ts := by
    unfold mockResponse
    rw [if_neg (by decide), if_pos rfl, if_pos h1]
  have e3 : mockResponse 1 draw ts "stopTreatment"
      = mockFormatted "Treatment not stopped" false ts := by
    unfold mockResponse
    rw [if_neg (by decide), if_neg (by decide), if_pos rfl, if_pos h1]
  have e4 : mockResponse 1 draw ts "startStimulation"
      = mockFormatted "Stimulation not started" false ts := by
    unfold mockResponse
    rw [if_neg (by decide), if_neg (by decide), if_neg (by decide), if_pos rfl,
      if_pos h1]
  have e5 : mockResponse 1 draw ts "stopStimulation"
      = mockFormatted "Stimulation not stopped" false ts := by
    unfold mockResponse
    rw [if_neg (by decide), if_neg (by decide), if_neg (by decide),
      if_neg (by decide), if_pos rfl, if_pos h1]
  rw [e1, e2, e3, e4, e5]
  exact ⟨strContains_mockFormatted _ _ _ _ (by decide),
    strContains_mockFormatted _ _ _ _ (by decide),
    strContains_mockFormatted _ _ _ _ (by decide),
    strContains_mockFormatted _ _ _ _ (by decide),
    strContains_mockFormatted _ _ _ _ (by decide)⟩

theorem mock_initialise_and_prob_one_witness :
    (0 : Rat) ≤ 1/2 ∧ (1/2 : Rat) < 1
    ∧ (strContains "success" (mockResponse 0 (1/2) "12:00:00.000" "initialise").text = true
      ∧ strContains "failed" (mockResponse 1 (1/2) "12:00:00.000" "startTreatment").text = true
      ∧ strContains "failed" (mockResponse 1 (1/2) "12:00:00.000" "stopTreatment").text = true
      ∧ strContains "failed" (mockResponse 1 (1/2) "12:00:00.000" "startStimulation").text = true
      ∧ strContains "failed" (mockResponse 1 (1/2) "12:00:00.000" "stopStimulation").text = true) :=
  ⟨by norm_num, by norm_num,
   mock_initialise_and_prob_one 0 (1/2) "12:00:00.000" (by norm_num) (by norm_num)⟩

/-- C9: any POST body outside the five-command vocabulary gets HTTP 400 and
an `illegal command` body from the mock server. -/
theorem mock_unknown_command (failProb draw : Rat) (ts body : String)
    (h1 : body ≠ "initialise") (h2 : body ≠ "startTreatment")
    (h3 : body ≠ "stopTreatment") (h4 : body ≠ "startStimulation")
    (h5 : body ≠ "stopStimulation") :
    (mockResponse failProb draw ts body).statusCode = 400
    ∧ strContains "illegal command" (mockResponse failProb draw ts body).text = true := by
  have e : mockResponse failProb draw ts body
      = ⟨400, "illegal command: The command was not recognized::" ++ ts ++ "\n"⟩ := by
    unfold mockResponse
    rw [if_neg h1, if_neg h2, if_neg h3, if_neg h4, if_neg h5]
  rw [e]
  refine ⟨rfl, ?_⟩
  show strContains "illegal command"
    ("illegal command: The command was not recognized::" ++ ts ++ "\n") = true
  exact strContains_append_left _ _ _ (strContains_append_left _ _ _ (by decide))

theorem mock_unknown_command_witness :
    ("makeCoffee" ≠ "initialise") ∧ ("makeCoffee" ≠ "startTreatment")
    ∧ ("makeCoffee" ≠ "stopTreatment") ∧ ("makeCoffee" ≠ "startStimulation")
    ∧ ("makeCoffee" ≠ "stopStimulation")
    ∧ ((mockResponse 0 0 "12:00:00.000" "makeCoffee").statusCode = 400
      ∧ strContains "illegal command"
          (mockResponse 0 0 "12:00:00.000" "makeCoffee").text = true) :=
  ⟨by decide, by decide, by decide, by decide, by decide,
   mock_unknown_command 0 0 "12:00:00.000" "makeCoffee" (by decide) (by decide)
     (by decide) (by decide) (by decide)⟩

/-- C10: `pause_stimulation` always reports failure: its synthesized
message cannot contain `"success"` (the spliced-in number renderings use
only float-rendering characters), yet the message goes through the same
`_validate_response` wrapping as the network commands; with logging on,
the log therefore gains the message and a spurious `Command failed:` line. -/
theorem pause_always_fails (st : ClientState) (dStr mStr : String)
    (hd : dStr.toList.all fltChar = true) (hm : mStr.toList.all fltChar = true) :
    (pause_stimulation st dStr mStr).success = false
    ∧ (pause_stimulation st dStr mStr).text = pauseMessage dStr mStr
    ∧ (pause_stimulation st dStr mStr).state.log
      = st.log ++ (if st.loggerEnabled
          then [pauseMessage dStr mStr, "Command failed: " ++ pauseMessage dStr mStr]
          else []) := by
  have hns := noSuccess_pauseMessage dStr mStr hd hm
  refine ⟨hns, rfl, ?_⟩
  have hstate : (pause_stimulation st dStr mStr).state
      = logIf (logIf st (pauseMessage dStr mStr))
          ("Command failed: " ++ pauseMessage dStr mStr) := by
    show (validateResponse (logIf st (pauseMessage dStr mStr))
        (pauseMessage dStr mStr)).2.2 = _
    exact validateResponse_state_of_fail _ _ hns
  rw [hstate]
  cases hlog : st.loggerEnabled <;> simp [logIf, hlog]

theorem pause_always_fails_witness :
    ("0.5".toList.all fltChar = true)
    ∧ ("500.0".toList.all fltChar = true)
    ∧ ((pause_stimulation (initialState true) "0.5" "500.0").success = false
      ∧ (pause_stimulation (initialState true) "0.5" "500.0").text
        = pauseMessage "0.5" "500.0"
      ∧ (pause_stimulation (initialState true) "0.5" "500.0").state.log
        = (initialState true).log ++ (if (initialState true).loggerEnabled
            then [pauseMessage "0.5" "500.0",
              "Command failed: " ++ pauseMessage "0.5" "500.0"]
            else [])) :=
  ⟨by decide, by decide,
   pause_always_fails (initialState true) "0.5" "500.0" (by decide) (by decide)⟩
